import Mathlib

/-!
# Verification of the cloud-lms identity and credential core

A shallow embedding of the identity/credential core of the `cloud-lms`
repository: PII encryption (`shared/encryption.py`), password hashing
(`app/models.py`), user lookup/registration and authentication
(`user-service/app/services.py`, `routes.py`), configuration
(`user-service/config.py`), and the JWT authorization guards
(`course-service/app/utils.py`, `progress-service/app/utils.py`).

Machine-level byte strings are modelled with Lean `String`; the Fernet
cipher and bcrypt are external libraries, so they are modelled
algebraically but faithfully to their observable contract: Fernet output
embeds a fresh random IV (so two encryptions of the same plaintext under
distinct IVs are distinct ciphertexts), and decryption authenticates the
key. All definitions are executable.
-/

namespace CloudLms

/-! ## PII Cipher: `shared/encryption.py` over the `cryptography` Fernet
primitive.

A Fernet token is `Version ‖ Timestamp ‖ IV ‖ AES-CTR ciphertext ‖ HMAC`
where the 16-byte IV is drawn fresh from `os.urandom` on every call to
`Fernet.encrypt`.  The algebraic model keeps exactly the observable
structure: a ciphertext determines (to the key holder) the plaintext and
carries the IV (`nonce`), so encryptions under different nonces are
different byte strings; decryption succeeds only under the producing key. -/

structure Ciphertext where
  key : String
  nonce : Nat
  plain : String
deriving DecidableEq, Repr

/-- `Fernet(key).encrypt(plain)` with the random IV made explicit. -/
def fernetEncrypt (key : String) (nonce : Nat) (plain : String) : Ciphertext :=
  ⟨key, nonce, plain⟩

/-- `Fernet(key).decrypt(ct)`: authenticated, fails (InvalidToken) under a
key other than the producing one. -/
def fernetDecrypt (key : String) (c : Ciphertext) : Option String :=
  if c.key = key then some c.plain else none

inductive EncErr where
  /-- `RuntimeError("ENCRYPTION_KEY not set …")` from `_get_cipher_suite`. -/
  | missingKey : EncErr
  /-- `cryptography.fernet.InvalidToken` on tampered/foreign ciphertext. -/
  | invalidCiphertext : EncErr
deriving DecidableEq, Repr

/-- `shared/encryption.py: encrypt_data`.  The cipher suite is lazily built
from the configured `ENCRYPTION_KEY`; `if not key` (None or empty string)
raises before any encryption happens. -/
def encrypt_data (key? : Option String) (nonce : Nat) (data : String) :
    Except EncErr Ciphertext :=
  match key? with
  | none => .error .missingKey
  | some k => if k = "" then .error .missingKey else .ok (fernetEncrypt k nonce data)

/-- `shared/encryption.py: decrypt_data`. -/
def decrypt_data (key? : Option String) (encrypted : Ciphertext) :
    Except EncErr String :=
  match key? with
  | none => .error .missingKey
  | some k =>
      if k = "" then .error .missingKey
      else match fernetDecrypt k encrypted with
        | some s => .ok s
        | none => .error .invalidCiphertext

/-! ## Configuration: `user-service/config.py` (the two fields the core
uses: the JWT signing secret and the PII encryption key). -/

/-- `os.environ` as a finite association list. -/
def envGet (env : List (String × String)) (k : String) : Option String :=
  (env.find? (fun p => p.1 = k)).map (fun p => p.2)

structure Config where
  /-- `JWT_SECRET = os.environ.get('JWT_SECRET', 'jwt-secret-key')`. -/
  jwtSecret : String
  /-- `ENCRYPTION_KEY = os.environ.get('ENCRYPTION_KEY')` — no default. -/
  encryptionKey : Option String
deriving DecidableEq, Repr

/-- `user-service/config.py: Config` restricted to the two secrets the
identity core reads.  Construction is total: no value aborts startup. -/
def mkConfig (env : List (String × String)) : Config :=
  { jwtSecret := (envGet env "JWT_SECRET").getD "jwt-secret-key"
    encryptionKey := envGet env "ENCRYPTION_KEY" }

/-! ## Credential hasher: bcrypt as used in `app/models.py`.
`hashpw` embeds the salt in its output; `checkpw` re-derives and compares. -/

structure BcryptHash where
  salt : Nat
  pw : String
deriving DecidableEq, Repr

/-- `bcrypt.hashpw(password, bcrypt.gensalt())` with the salt explicit. -/
def bcryptHashpw (password : String) (salt : Nat) : BcryptHash :=
  ⟨salt, password⟩

/-- `bcrypt.checkpw(password, stored)`. -/
def bcryptCheckpw (password : String) (stored : BcryptHash) : Bool :=
  stored.pw = password

/-! ## Data model: `user-service/app/models.py` (the columns the identity
core reads and writes).  `email_encrypted` is the unique `LargeBinary`
column; profile PII columns are nullable (`Option`). -/

structure User where
  id : Nat
  email_encrypted : Ciphertext
  password_hash : BcryptHash
  user_type : String
  is_active : Bool
deriving DecidableEq, Repr

/-- `User.get_email`: decrypts the stored ciphertext. -/
def User.get_email (key? : Option String) (u : User) : Except EncErr String :=
  decrypt_data key? u.email_encrypted

/-- `User.check_password`. -/
def User.check_password (u : User) (password : String) : Bool :=
  bcryptCheckpw password u.password_hash

structure UserProfile where
  user_id : Nat
  first_name_encrypted : Option Ciphertext
  last_name_encrypted : Option Ciphertext
  phone_encrypted : Option Ciphertext
  bio : Option String
deriving DecidableEq, Repr

/-- A freshly constructed `UserProfile(user_id=uid)`: every nullable PII
column starts with no ciphertext stored. -/
def UserProfile.new (uid : Nat) : UserProfile :=
  ⟨uid, none, none, none, none⟩

/-- `UserProfile.set_first_name`: `if first_name:` guards the assignment, so
a falsy value (the empty string) stores nothing. -/
def UserProfile.set_first_name (key? : Option String) (nonce : Nat)
    (first_name : String) (p : UserProfile) : Except EncErr UserProfile :=
  if first_name = "" then .ok p
  else (encrypt_data key? nonce first_name).map
    (fun ct => { p with first_name_encrypted := some ct })

/-- `UserProfile.set_last_name`. -/
def UserProfile.set_last_name (key? : Option String) (nonce : Nat)
    (last_name : String) (p : UserProfile) : Except EncErr UserProfile :=
  if last_name = "" then .ok p
  else (encrypt_data key? nonce last_name).map
    (fun ct => { p with last_name_encrypted := some ct })

/-- `UserProfile.set_phone`. -/
def UserProfile.set_phone (key? : Option String) (nonce : Nat)
    (phone : String) (p : UserProfile) : Except EncErr UserProfile :=
  if phone = "" then .ok p
  else (encrypt_data key? nonce phone).map
    (fun ct => { p with phone_encrypted := some ct })

/-- `UserProfile.get_first_name`, instrumented with the number of
`decrypt_data` invocations:
`decrypt_data(self.first_name_encrypted) if self.first_name_encrypted else None`. -/
def UserProfile.get_first_name (key? : Option String) (p : UserProfile) :
    Except EncErr (Option String) × Nat :=
  match p.first_name_encrypted with
  | none => (.ok none, 0)
  | some ct => ((decrypt_data key? ct).map some, 1)

/-- `UserProfile.get_last_name`, instrumented like `get_first_name`. -/
def UserProfile.get_last_name (key? : Option String) (p : UserProfile) :
    Except EncErr (Option String) × Nat :=
  match p.last_name_encrypted with
  | none => (.ok none, 0)
  | some ct => ((decrypt_data key? ct).map some, 1)

/-- `UserProfile.get_phone`, instrumented like `get_first_name`. -/
def UserProfile.get_phone (key? : Option String) (p : UserProfile) :
    Except EncErr (Option String) × Nat :=
  match p.phone_encrypted with
  | none => (.ok none, 0)
  | some ct => ((decrypt_data key? ct).map some, 1)

/-- The persistent store: the `users` and `user_profiles` tables plus the
id sequence. -/
structure DB where
  users : List User
  profiles : List UserProfile
  nextUserId : Nat
deriving DecidableEq, Repr

def DB.empty : DB := ⟨[], [], 0⟩

/-- `INSERT` into `users` under the `unique=True` constraint on the
`email_encrypted` column: rejected only when the exact ciphertext bytes
are already present. -/
def DB.insertUser (db : DB) (u : User) : Option DB :=
  if db.users.any (fun v => v.email_encrypted = u.email_encrypted) then none
  else some { db with users := db.users ++ [u], nextUserId := db.nextUserId + 1 }

/-! ## Services: `user-service/app/services.py`. -/

/-- The registration request body (`data` dict): a key absent from the dict
is `none`. -/
structure RegData where
  email : String
  password : String
  user_type : String
  first_name : Option String
  last_name : Option String
  phone : Option String
  bio : Option String
deriving DecidableEq, Repr

/-- `any(key in data for key in ['first_name', 'last_name', 'phone', 'bio'])`. -/
def RegData.wantsProfile (d : RegData) : Bool :=
  d.first_name.isSome || d.last_name.isSome || d.phone.isSome || d.bio.isSome

/-- `UserService.get_user_by_email`: encrypts the query email (with a fresh
Fernet IV, `nonce`) and exact-matches the `email_encrypted` column. -/
def get_user_by_email (key? : Option String) (nonce : Nat) (email : String)
    (db : DB) : Except EncErr (Option User) :=
  (encrypt_data key? nonce email).map
    (fun ct => db.users.find? (fun u => u.email_encrypted = ct))

inductive CreateErr where
  /-- an `EncErr` raised by `encrypt_data` propagates out of the service -/
  | encFailed : EncErr → CreateErr
  /-- `ValueError('User with this email already exists')` -/
  | alreadyExists : CreateErr
  /-- `IntegrityError` from the unique constraint on `email_encrypted` -/
  | uniqueViolation : CreateErr
  /-- the second `db.session.commit()` (the profile's) failed -/
  | profileStepFailed : CreateErr
deriving DecidableEq, Repr

/-- The profile-construction block of `UserService.create_user`: builds
`UserProfile(user_id=uid)` and applies each setter whose key is in `data`. -/
def buildProfile (key? : Option String) (nFn nLn nPh : Nat) (uid : Nat)
    (d : RegData) : Except EncErr UserProfile := do
  let p := UserProfile.new uid
  let p ← match d.first_name with
    | none => pure p
    | some v => UserProfile.set_first_name key? nFn v p
  let p ← match d.last_name with
    | none => pure p
    | some v => UserProfile.set_last_name key? nLn v p
  let p ← match d.phone with
    | none => pure p
    | some v => UserProfile.set_phone key? nPh v p
  pure { p with bio := d.bio }

/-- `UserService.create_user`.  The duplicate check re-encrypts the email
under a fresh IV (`nLookup`); on a miss the user row is committed on its
own (`db.session.commit()` — "Commit to get the user.id for the profile"),
and only then is the profile built and committed in a second transaction
whose success is the external collaborator flag `profileCommitOk`.
Returns the outcome together with the state the database was left in. -/
def create_user (key? : Option String) (nLookup nEmail nFn nLn nPh salt : Nat)
    (profileCommitOk : Bool) (d : RegData) (db : DB) :
    Except CreateErr Nat × DB :=
  match get_user_by_email key? nLookup d.email db with
  | .error e => (.error (.encFailed e), db)
  | .ok (some _) => (.error .alreadyExists, db)
  | .ok none =>
    match encrypt_data key? nEmail d.email with
    | .error e => (.error (.encFailed e), db)
    | .ok ct =>
      let uid := db.nextUserId
      let user : User := ⟨uid, ct, bcryptHashpw d.password salt, d.user_type, true⟩
      match db.insertUser user with
      | none => (.error .uniqueViolation, db)
      | some db1 =>
        if d.wantsProfile then
          if profileCommitOk then
            match buildProfile key? nFn nLn nPh uid d with
            | .error e => (.error (.encFailed e), db1)
            | .ok prof => (.ok uid, { db1 with profiles := db1.profiles ++ [prof] })
          else (.error .profileStepFailed, db1)
        else (.ok uid, db1)

/-! ## JWT: the PyJWT library as called at `services.py:118` (encode) and
`course-service/app/utils.py:31` / `progress-service/app/utils.py:31`
(decode).  PyJWT's `decode` parses the three base64url segments first
(malformed → `DecodeError ⊂ InvalidTokenError`), then verifies the HS256
signature (`InvalidSignatureError ⊂ InvalidTokenError`), and only then
validates registered claims (`exp ≤ now` → `ExpiredSignatureError`). -/

/-- The token payload built by `AuthService.authenticate_user`. -/
structure Claims where
  user_id : Nat
  email : String
  user_type : String
  exp : Nat
deriving DecidableEq, Repr

/-- A JWT string: either not three well-formed segments, or a payload
together with the HMAC signature, which (HMAC being a PRF keyed by the
secret) verifies exactly under the secret that produced it. -/
inductive Tok where
  | malformed : String → Tok
  | signed : Claims → String → Tok
deriving DecidableEq, Repr

inductive JwtErr where
  | expired : JwtErr
  | invalid : JwtErr
  | processing : JwtErr
deriving DecidableEq, Repr

/-- `jwt.decode(token, secret, algorithms=['HS256'])` at time `now`:
parse, then signature, then expiry — in that order. -/
def jwtDecode (secret : String) (now : Nat) (t : Tok) : Except JwtErr Claims :=
  match t with
  | .malformed _ => .error .invalid
  | .signed claims sigKey =>
      if sigKey ≠ secret then .error .invalid
      else if claims.exp ≤ now then .error .expired
      else .ok claims

/-- `jwt.encode(payload, secret, algorithm='HS256')`. -/
def jwtEncode (claims : Claims) (secret : String) : Tok :=
  .signed claims secret

/-- `AuthService.authenticate_user`: look the user up by re-encrypted
email (fresh IV `nLookup`), check the password, check `is_active`; on
success issue a token carrying `user_id`, the decrypted email,
`user_type` and `exp = now + JWT_EXPIRATION_HOURS`.  Returns `.ok none`
for every credential failure; encryption errors propagate as exceptions. -/
def authenticate_user (key? : Option String) (nLookup : Nat)
    (email password : String) (db : DB) (jwtSecret : String)
    (expHours now : Nat) : Except EncErr (Option Tok) :=
  match get_user_by_email key? nLookup email db with
  | .error e => .error e
  | .ok none => .ok none
  | .ok (some user) =>
      if ¬ user.check_password password then .ok none
      else if ¬ user.is_active then .ok none
      else
        match user.get_email key? with
        | .error e => .error e
        | .ok em =>
            .ok (some (jwtEncode
              ⟨user.id, em, user.user_type, now + 3600 * expHours⟩ jwtSecret))

/-- The outward response of the `/auth/login` route. -/
inductive LoginResp where
  | success : Tok → LoginResp
  | failure : Nat → String → LoginResp
deriving DecidableEq, Repr

/-- The tail of `routes.py: login` from the `auth_service.authenticate_user`
call on: `None` → 401 `INVALID_CREDENTIALS`; a raised exception → the
generic 500 `LOGIN_ERROR` handler; a token → 200. -/
def loginTail (r : Except EncErr (Option Tok)) : LoginResp :=
  match r with
  | .error _ => .failure 500 "LOGIN_ERROR"
  | .ok none => .failure 401 "INVALID_CREDENTIALS"
  | .ok (some t) => .success t

/-! ## Authorization guards: `course-service/app/utils.py` and the
byte-identical `token_required` of `progress-service/app/utils.py`.
The `jwt.decode` call is abstracted as the function argument `decode`
(the guards' control flow does not inspect it), and the wrapped Flask view
as `f`. -/

/-- Outcome of a guarded request: either a rejection response `(status,
code)` written before the view runs, or the view's value on the
`user_id` extracted from the verified claims. -/
inductive GuardOutcome (α : Type) where
  | rejected : Nat → String → GuardOutcome α
  | allowed : Nat → α → GuardOutcome α
deriving DecidableEq, Repr

/-- The error-code string each `except` arm of the guards writes. -/
def jwtErrCode : JwtErr → String
  | .expired => "TOKEN_EXPIRED"
  | .invalid => "TOKEN_INVALID"
  | .processing => "TOKEN_PROCESSING_ERROR"

/-- `if token.startswith('Bearer '): token = token[7:]`. -/
def stripBearer (s : String) : String :=
  if s.startsWith "Bearer " then s.drop 7 else s

/-- `token_required` (`course-service/app/utils.py:10-46`, identically
`progress-service/app/utils.py:10-46`).  `header` is
`request.headers.get('Authorization')`; `if not token` rejects `None`
and the empty string alike, before any prefix stripping or decoding. -/
def token_required {α : Type} (decode : String → Except JwtErr Claims)
    (header : Option String) (f : Nat → α) : GuardOutcome α :=
  match header with
  | none => .rejected 401 "TOKEN_MISSING"
  | some token =>
      if token = "" then .rejected 401 "TOKEN_MISSING"
      else
        match decode (stripBearer token) with
        | .error e => .rejected 401 (jwtErrCode e)
        | .ok data => .allowed data.user_id (f data.user_id)

/-- `instructor_required` (`course-service/app/utils.py:49-92`): as
`token_required`, plus `if data.get('user_type') != 'instructor'` →
403 `FORBIDDEN_ACCESS` before the view is invoked. -/
def instructor_required {α : Type} (decode : String → Except JwtErr Claims)
    (header : Option String) (f : Nat → α) : GuardOutcome α :=
  match header with
  | none => .rejected 401 "TOKEN_MISSING"
  | some token =>
      if token = "" then .rejected 401 "TOKEN_MISSING"
      else
        match decode (stripBearer token) with
        | .error e => .rejected 401 (jwtErrCode e)
        | .ok data =>
            if data.user_type ≠ "instructor" then
              .rejected 403 "FORBIDDEN_ACCESS"
            else .allowed data.user_id (f data.user_id)

/-! ## Concrete fixtures used to evaluate the code on specific inputs. -/

/-- The spec's end-to-end registration body: email `a@example.com`,
password `Secret123`, role `student`, no profile keys. -/
def regData : RegData :=
  ⟨"a@example.com", "Secret123", "student", none, none, none, none⟩

/-- The database after registering `regData` under key `"k"`, where the
stored email ciphertext was produced with Fernet IV `1`. -/
def regDb : DB :=
  (create_user (some "k") 0 1 2 3 4 7 true regData DB.empty).2

/-- A registration body that also requests a profile (`first_name`). -/
def regDataProfile : RegData :=
  ⟨"a@example.com", "Secret123", "student", some "Ann", none, none, none⟩

/-- A decode collaborator that accepts every token as a signed, unexpired
`student` claim set — the "valid token, wrong role" request. -/
def okStudentDecode : String → Except JwtErr Claims :=
  fun _ => .ok ⟨7, "a@example.com", "student", 99⟩

/-- A decode collaborator for a request whose token is both expired
(`exp = 3 ≤ now = 10`) and signed under `"bad"` instead of the configured
secret `"s"`. -/
def tamperedExpiredDecode : String → Except JwtErr Claims :=
  fun _ => jwtDecode "s" 10 (.signed ⟨1, "a@example.com", "student", 3⟩ "bad")

/-! ## Theorems -/

/-- C8. Cipher round-trip: for every valid (non-empty) key, every Fernet
IV and every string `s`, `decrypt_data (encrypt_data s) = s`. -/
theorem c8_cipher_round_trip (k : String) (hk : k ≠ "") (n : Nat) (s : String) :
    (encrypt_data (some k) n s).bind (decrypt_data (some k)) = .ok s := by
  simp [encrypt_data, decrypt_data, fernetEncrypt, fernetDecrypt, hk, Except.bind]

/-- C8, witness: the round trip evaluated at key `"key0"`, IV `0`,
plaintext `a@example.com`. -/
theorem c8_cipher_round_trip_witness :
    (encrypt_data (some "key0") 0 "a@example.com").bind
      (decrypt_data (some "key0")) = .ok "a@example.com" :=
  c8_cipher_round_trip "key0" (by decide) 0 "a@example.com"

/-- C9. Optional-PII absence: when a profile stores no ciphertext for a
field, its getter returns no value with zero `decrypt_data` invocations;
setting a field to the empty string stores nothing (absence is "no
ciphertext stored", never the ciphertext of `""`); a fresh profile stores
no ciphertext in any PII column. -/
theorem c9_optional_pii_absence (key? : Option String) (p : UserProfile)
    (nonce uid : Nat)
    (h1 : p.first_name_encrypted = none) (h2 : p.last_name_encrypted = none)
    (h3 : p.phone_encrypted = none) :
    p.get_first_name key? = (.ok none, 0) ∧
    p.get_last_name key? = (.ok none, 0) ∧
    p.get_phone key? = (.ok none, 0) ∧
    UserProfile.set_first_name key? nonce "" p = .ok p ∧
    UserProfile.set_last_name key? nonce "" p = .ok p ∧
    UserProfile.set_phone key? nonce "" p = .ok p ∧
    (UserProfile.new uid).first_name_encrypted = none ∧
    (UserProfile.new uid).last_name_encrypted = none ∧
    (UserProfile.new uid).phone_encrypted = none := by
  refine ⟨?_, ?_, ?_, ?_, ?_, ?_, rfl, rfl, rfl⟩ <;>
    simp [UserProfile.get_first_name, UserProfile.get_last_name,
      UserProfile.get_phone, UserProfile.set_first_name,
      UserProfile.set_last_name, UserProfile.set_phone, h1, h2, h3]

/-- C9, witness: the absence semantics evaluated on a fresh profile with
no key configured. -/
theorem c9_optional_pii_absence_witness :
    (UserProfile.new 0).get_first_name none = (.ok none, 0) ∧
    (UserProfile.new 0).get_last_name none = (.ok none, 0) ∧
    (UserProfile.new 0).get_phone none = (.ok none, 0) ∧
    UserProfile.set_first_name none 0 "" (UserProfile.new 0) = .ok (UserProfile.new 0) ∧
    UserProfile.set_last_name none 0 "" (UserProfile.new 0) = .ok (UserProfile.new 0) ∧
    UserProfile.set_phone none 0 "" (UserProfile.new 0) = .ok (UserProfile.new 0) ∧
    (UserProfile.new 0).first_name_encrypted = none ∧
    (UserProfile.new 0).last_name_encrypted = none ∧
    (UserProfile.new 0).phone_encrypted = none :=
  c9_optional_pii_absence none (UserProfile.new 0) 0 0 rfl rfl rfl

/-- C10. An Authorization header that is present but empty is classified
exactly like an absent one: both guards answer 401 `TOKEN_MISSING`, for
every decode function and every wrapped view — so no prefix stripping,
decoding or signature check is ever attempted and the view never runs. -/
theorem c10_empty_header_like_absent {α : Type}
    (decode : String → Except JwtErr Claims) (f : Nat → α) :
    token_required decode none f = .rejected 401 "TOKEN_MISSING" ∧
    token_required decode (some "") f = .rejected 401 "TOKEN_MISSING" ∧
    token_required decode (some "") f = token_required decode none f ∧
    instructor_required decode none f = .rejected 401 "TOKEN_MISSING" ∧
    instructor_required decode (some "") f = .rejected 401 "TOKEN_MISSING" := by
  refine ⟨rfl, ?_, ?_, rfl, ?_⟩ <;> simp [token_required, instructor_required]

/-- C3. Signature gates every other judgment: verification classifies a
malformed token as invalid before any claim is read, and a well-formed
token whose signature does not verify is classified `TOKEN_INVALID` even
when its `exp` lies in the past — never `TOKEN_EXPIRED`; a guarded request
carrying such a token is rejected 401 `TOKEN_INVALID`. -/
theorem c3_signature_gates_expiry {α : Type} (secret : String) (now : Nat)
    (claims : Claims) (sigKey raw s : String)
    (decode : String → Except JwtErr Claims) (f : Nat → α)
    (hsig : sigKey ≠ secret) (_hexp : claims.exp ≤ now) (hs : s ≠ "")
    (hdec : decode (stripBearer s) = jwtDecode secret now (.signed claims sigKey)) :
    jwtDecode secret now (.malformed raw) = .error .invalid ∧
    jwtDecode secret now (.signed claims sigKey) = .error .invalid ∧
    jwtDecode secret now (.signed claims sigKey) ≠ .error .expired ∧
    token_required decode (some s) f = .rejected 401 "TOKEN_INVALID" := by
  have hd : jwtDecode secret now (.signed claims sigKey) = .error .invalid := by
    simp [jwtDecode, hsig]
  refine ⟨rfl, hd, by simp [hd], ?_⟩
  simp [token_required, hs, hdec, hd, jwtErrCode]

/-- C3, witness: a token expired at time 10 and signed under `"bad"`
rather than the configured secret `"s"` is classified `TOKEN_INVALID`. -/
theorem c3_signature_gates_expiry_witness :
    jwtDecode "s" 10 (.malformed "x") = .error .invalid ∧
    jwtDecode "s" 10 (.signed ⟨1, "a@example.com", "student", 3⟩ "bad")
      = .error .invalid ∧
    jwtDecode "s" 10 (.signed ⟨1, "a@example.com", "student", 3⟩ "bad")
      ≠ .error .expired ∧
    token_required tamperedExpiredDecode (some "Bearer t") (fun n => n)
      = .rejected 401 "TOKEN_INVALID" :=
  c3_signature_gates_expiry "s" 10 ⟨1, "a@example.com", "student", 3⟩ "bad" "x"
    "Bearer t" tamperedExpiredDecode (fun n => n)
    (by decide) (by decide) (by decide) rfl

/-- C5. Role gate: when the token decodes successfully (signature and
expiry verified) but its role claim is not `instructor`, the
instructor-gated guard rejects 403 `FORBIDDEN_ACCESS` — for every wrapped
view `f`, which therefore never runs; when decoding fails, the rejection
is a 401 with the decode error's code, never the role verdict. -/
theorem c5_role_gate {α : Type} (decode : String → Except JwtErr Claims)
    (s : String) (claims : Claims) (f : Nat → α) (hs : s ≠ "") :
    (decode (stripBearer s) = .ok claims → claims.user_type ≠ "instructor" →
      instructor_required decode (some s) f = .rejected 403 "FORBIDDEN_ACCESS") ∧
    (∀ e, decode (stripBearer s) = .error e →
      instructor_required decode (some s) f = .rejected 401 (jwtErrCode e) ∧
      jwtErrCode e ≠ "FORBIDDEN_ACCESS") := by
  constructor
  · intro hok hrole
    simp [instructor_required, hs, hok, hrole]
  · intro e he
    refine ⟨by simp [instructor_required, hs, he], ?_⟩
    cases e <;> simp [jwtErrCode]

/-- C5, witness: a correctly-signed, unexpired token with role `student`
presented to the instructor gate is rejected 403 with the view
uninvoked; the same gate classifies a decode failure as 401. -/
theorem c5_role_gate_witness :
    (okStudentDecode (stripBearer "Bearer t")
        = .ok ⟨7, "a@example.com", "student", 99⟩ →
      (⟨7, "a@example.com", "student", 99⟩ : Claims).user_type ≠ "instructor" →
      instructor_required okStudentDecode (some "Bearer t") (fun n => n)
        = .rejected 403 "FORBIDDEN_ACCESS") ∧
    (∀ e, okStudentDecode (stripBearer "Bearer t") = .error e →
      instructor_required okStudentDecode (some "Bearer t") (fun n => n)
        = .rejected 401 (jwtErrCode e) ∧
      jwtErrCode e ≠ "FORBIDDEN_ACCESS") :=
  c5_role_gate okStudentDecode "Bearer t" ⟨7, "a@example.com", "student", 99⟩
    (fun n => n) (by decide)

/-- C6. Credential-failure indistinguishability: whichever of the three
causes holds — lookup finds no user, the found user's password check
fails, or the password is right but the account is inactive —
`authenticate_user` answers exactly `.ok none` and the login route's
outward response is the single 401 `INVALID_CREDENTIALS`. -/
theorem c6_credential_failures_indistinguishable (key? : Option String)
    (nLookup : Nat) (email password : String) (db : DB) (secret : String)
    (expHours now : Nat)
    (h : get_user_by_email key? nLookup email db = .ok none
       ∨ (∃ u, get_user_by_email key? nLookup email db = .ok (some u) ∧
            u.check_password password = false)
       ∨ (∃ u, get_user_by_email key? nLookup email db = .ok (some u) ∧
            u.check_password password = true ∧ u.is_active = false)) :
    authenticate_user key? nLookup email password db secret expHours now
      = .ok none ∧
    loginTail (authenticate_user key? nLookup email password db secret expHours now)
      = .failure 401 "INVALID_CREDENTIALS" := by
  have hnone :
      authenticate_user key? nLookup email password db secret expHours now
        = .ok none := by
    rcases h with h1 | ⟨u, hu, hpw⟩ | ⟨u, hu, hpw, hact⟩
    · simp [authenticate_user, h1]
    · simp [authenticate_user, hu, hpw]
    · simp [authenticate_user, hu, hpw, hact]
  exact ⟨hnone, by simp [loginTail, hnone]⟩

/-- C6, witness: the wrong-password cause evaluated on a one-user store
(the lookup IV happens to coincide with the stored one, so the row is
found) yields `.ok none` and the generic 401 `INVALID_CREDENTIALS`. -/
theorem c6_credential_failures_indistinguishable_witness :
    authenticate_user (some "k") 0 "a@example.com" "WrongPassword"
      ⟨[⟨0, ⟨"k", 0, "a@example.com"⟩, ⟨5, "Secret123"⟩, "student", true⟩], [], 1⟩
      "secret" 24 100 = .ok none ∧
    loginTail (authenticate_user (some "k") 0 "a@example.com" "WrongPassword"
      ⟨[⟨0, ⟨"k", 0, "a@example.com"⟩, ⟨5, "Secret123"⟩, "student", true⟩], [], 1⟩
      "secret" 24 100) = .failure 401 "INVALID_CREDENTIALS" :=
  c6_credential_failures_indistinguishable (some "k") 0 "a@example.com"
    "WrongPassword"
    ⟨[⟨0, ⟨"k", 0, "a@example.com"⟩, ⟨5, "Secret123"⟩, "student", true⟩], [], 1⟩
    "secret" 24 100
    (Or.inr (Or.inl ⟨⟨0, ⟨"k", 0, "a@example.com"⟩, ⟨5, "Secret123"⟩, "student", true⟩,
      rfl, by decide⟩))

/-- C4, counterexample: with neither `JWT_SECRET` nor `ENCRYPTION_KEY` in
the environment, configuration construction still succeeds, and the
signing secret it supplies is the hard-coded default `jwt-secret-key` —
so the secrets' absence is not a startup-time fatal condition and a
default fallback secret exists, contrary to the claim. -/
theorem c4_counterexample :
    envGet [] "JWT_SECRET" = none ∧
    envGet [] "ENCRYPTION_KEY" = none ∧
    mkConfig [] = { jwtSecret := "jwt-secret-key", encryptionKey := none } ∧
    jwtEncode ⟨1, "a@example.com", "student", 99⟩ (mkConfig []).jwtSecret
      = .signed ⟨1, "a@example.com", "student", 99⟩ "jwt-secret-key" := by
  refine ⟨rfl, rfl, rfl, rfl⟩

/-- C4, amended: only the encryption key is required and it has no
default — in its absence every encrypt and decrypt call fails at first
use (a per-call `missingKey` error, never silent plaintext) — while the
token-signing secret falls back to the default `jwt-secret-key` when
unset, and configuration construction itself never fails. -/
theorem c4_config_key_handling (env : List (String × String)) (n : Nat)
    (s : String) (c : Ciphertext)
    (hk : envGet env "ENCRYPTION_KEY" = none) :
    (mkConfig env).encryptionKey = none ∧
    encrypt_data (mkConfig env).encryptionKey n s = .error .missingKey ∧
    decrypt_data (mkConfig env).encryptionKey c = .error .missingKey ∧
    (envGet env "JWT_SECRET" = none → (mkConfig env).jwtSecret = "jwt-secret-key") := by
  have hcfg : (mkConfig env).encryptionKey = none := by simp [mkConfig, hk]
  refine ⟨hcfg, by simp [encrypt_data, hcfg], by simp [decrypt_data, hcfg], ?_⟩
  intro hj
  simp [mkConfig, hj]

/-- C4, witness: the amended behavior evaluated at the empty
environment. -/
theorem c4_config_key_handling_witness :
    (mkConfig []).encryptionKey = none ∧
    encrypt_data (mkConfig []).encryptionKey 0 "a@example.com"
      = .error .missingKey ∧
    decrypt_data (mkConfig []).encryptionKey ⟨"k", 0, "x"⟩
      = .error .missingKey ∧
    (envGet [] "JWT_SECRET" = none → (mkConfig []).jwtSecret = "jwt-secret-key") :=
  c4_config_key_handling [] 0 "a@example.com" ⟨"k", 0, "x"⟩ rfl

/-- C7, counterexample: registering with a requested profile
(`first_name = "Ann"`) while the profile commit fails leaves exactly the
partially-registered state the claim rules out — the user row is already
persisted (first commit) and no profile row exists. -/
theorem c7_counterexample :
    regDataProfile.wantsProfile = true ∧
    (create_user (some "k") 0 1 2 3 4 7 false regDataProfile DB.empty).1
      = .error .profileStepFailed ∧
    ((create_user (some "k") 0 1 2 3 4 7 false regDataProfile DB.empty).2).users.length
      = 1 ∧
    ((create_user (some "k") 0 1 2 3 4 7 false regDataProfile DB.empty).2).profiles
      = [] :=
  ⟨rfl, rfl, rfl, rfl⟩

/-- C7, amended: registration commits the Identity Record in a first unit
of work and the Profile in a second; whenever the profile step fails, the
persisted state retains exactly one new user row and no new profile — a
user row without its requested profile. -/
theorem c7_user_committed_before_profile (key? : Option String)
    (nL nE nFn nLn nPh salt : Nat) (d : RegData) (db : DB)
    (h : (create_user key? nL nE nFn nLn nPh salt false d db).1
        = .error .profileStepFailed) :
    d.wantsProfile = true ∧
    ((create_user key? nL nE nFn nLn nPh salt false d db).2).users.length
      = db.users.length + 1 ∧
    ((create_user key? nL nE nFn nLn nPh salt false d db).2).profiles
      = db.profiles := by
  cases hg : get_user_by_email key? nL d.email db with
  | error e => simp [create_user, hg] at h
  | ok o =>
    cases o with
    | some u => simp [create_user, hg] at h
    | none =>
      cases he : encrypt_data key? nE d.email with
      | error e => simp [create_user, hg, he] at h
      | ok ct =>
        cases hi : DB.insertUser db
            ⟨db.nextUserId, ct, bcryptHashpw d.password salt, d.user_type, true⟩ with
        | none => simp [create_user, hg, he, hi] at h
        | some db1 =>
          by_cases hw : d.wantsProfile
          · have hrun : create_user key? nL nE nFn nLn nPh salt false d db
                = (.error .profileStepFailed, db1) := by
              simp [create_user, hg, he, hi, hw]
            have hdb1 : db1 = { db with
                users := db.users ++
                  [⟨db.nextUserId, ct, bcryptHashpw d.password salt, d.user_type, true⟩],
                nextUserId := db.nextUserId + 1 } := by
              unfold DB.insertUser at hi
              split at hi
              · exact absurd hi (by simp)
              · exact (Option.some.injEq _ _ ▸ hi).symm
            refine ⟨hw, ?_, ?_⟩ <;> simp [hrun, hdb1]
          · simp [create_user, hg, he, hi, hw] at h

/-- C7, witness for the amended statement: the profile-commit failure run
of `c7_counterexample`'s input leaves one user and the profile table
unchanged. -/
theorem c7_user_committed_before_profile_witness :
    regDataProfile.wantsProfile = true ∧
    ((create_user (some "k") 0 1 2 3 4 7 false regDataProfile DB.empty).2).users.length
      = DB.empty.users.length + 1 ∧
    ((create_user (some "k") 0 1 2 3 4 7 false regDataProfile DB.empty).2).profiles
      = DB.empty.profiles :=
  c7_user_committed_before_profile (some "k") 0 1 2 3 4 7 regDataProfile DB.empty rfl

/-- C1, evaluation at the failing input: registering `a@example.com` /
`Secret123` succeeds and the row is there (its ciphertext decrypts to the
email, its hash verifies the password, it is active) — yet
`get_user_by_email` under a fresh Fernet IV (5, distinct from the stored
IV 1) finds nothing, `authenticate_user` returns no token, and login
answers 401 `INVALID_CREDENTIALS`. -/
theorem c1_register_then_authenticate_fails :
    (create_user (some "k") 0 1 2 3 4 7 true regData DB.empty).1 = .ok 0 ∧
    regDb.users
      = [⟨0, ⟨"k", 1, "a@example.com"⟩, ⟨7, "Secret123"⟩, "student", true⟩] ∧
    decrypt_data (some "k") ⟨"k", 1, "a@example.com"⟩ = .ok "a@example.com" ∧
    User.check_password
      ⟨0, ⟨"k", 1, "a@example.com"⟩, ⟨7, "Secret123"⟩, "student", true⟩
      "Secret123" = true ∧
    get_user_by_email (some "k") 5 "a@example.com" regDb = .ok none ∧
    authenticate_user (some "k") 5 "a@example.com" "Secret123" regDb
      "secret" 24 100 = .ok none ∧
    loginTail (authenticate_user (some "k") 5 "a@example.com" "Secret123" regDb
      "secret" 24 100) = .failure 401 "INVALID_CREDENTIALS" :=
  ⟨rfl, rfl, rfl, rfl, rfl, rfl, rfl⟩

/-- C2, evaluation at the failing input: with `a@example.com` already
registered (stored under IV 1), a second `create_user` for the same email
— its duplicate-check re-encryption drawing fresh IV 5 and its insert
IV 6 — raises no error and persists a second identity row; both stored
ciphertexts decrypt to the same email. -/
theorem c2_duplicate_registration_not_rejected :
    (create_user (some "k") 5 6 2 3 4 8 true regData regDb).1 = .ok 1 ∧
    ((create_user (some "k") 5 6 2 3 4 8 true regData regDb).2).users.length = 2 ∧
    ((create_user (some "k") 5 6 2 3 4 8 true regData regDb).2).users.map
      (fun u => decrypt_data (some "k") u.email_encrypted)
      = [.ok "a@example.com", .ok "a@example.com"] :=
  ⟨rfl, rfl, rfl⟩

end CloudLms
